import Mathlib

/-!
Shallow embedding of `lvsfunc/denoise.py`: the chroma-aware denoiser
orchestrator `quick_denoise` and the detail-mask builder `detail_mask`,
together with the fragments of their external collaborators (vsutil,
VapourSynth core filters) that the verified properties depend on.

Clips are modelled as symbolic filter-graph terms carrying format
metadata.  Numeric parameters use `ℚ`: this layer only forwards numbers
to plugins and scales thresholds by exact powers of two, so rational
arithmetic is faithful for everything stated below.
-/

set_option autoImplicit false

namespace Lvsfunc

/-- VapourSynth colour families relevant to `denoise.py`. -/
inductive ColorFamily
  | GRAY
  | RGB
  | YUV
  | YCOCG
deriving DecidableEq

/-- Static format of a clip: colour family, bit depth and chroma
subsampling (base-2 logarithm, as VapourSynth stores it). -/
structure VFormat where
  colorFamily : ColorFamily
  bitsPerSample : ℕ
  subSamplingW : ℕ
  subSamplingH : ℕ
deriving DecidableEq

/-- Symbolic filter graph.  Each constructor is one external filter call made
by `denoise.py`; the arguments record exactly what the Python source passes
(`kwargs` is the forwarded configuration map, with integer values since the
only key the wrapper ever reads, `sbsize`, is used as an integer). -/
inductive Clip
  | source (format : Option VFormat) (width height : ℕ)
  | extractPlane (c : Clip) (idx : ℕ)
  | knlMeansCL (c : Clip) (d a : ℤ) (kwargs : List (String × ℤ))
  | tnlMeans (c : Clip) (ax ay az : ℤ) (kwargs : List (String × ℤ))
  | dftTest (c : Clip) (sosize : ℤ) (kwargs : List (String × ℤ))
  | smDegrain (c : Clip) (prefilter : ℤ) (kwargs : List (String × ℤ))
  | bm3d (c : Clip) (sigma : ℚ) (psample radius1 : ℤ) (ref : Clip)
  | shufflePlanes (p0 p1 p2 : Clip) (family : ColorFamily)
  | bilateralGaussian (c : Clip) (sigma : ℚ)
  | rangemask (c : Clip) (rad radc : ℤ)
  | prewitt (c : Clip)
  | binarize (c : Clip) (threshold : ℚ)
  | stdExpr (a b : Clip) (program : String)
  | removeGrain (c : Clip) (mode : ℕ)
  | resizePoint (c : Clip) (bits : ℕ)
deriving DecidableEq

/-- Format metadata carried along a filter graph. -/
structure Meta where
  family : ColorFamily
  bits : ℕ
  ssw : ℕ
  ssh : ℕ
  width : ℕ
  height : ℕ
deriving DecidableEq

/-- Metadata of a filter-graph term.  The denoising filters preserve the
format of their input; `resizePoint` changes the bit depth; plane extraction
yields a GRAY plane (chroma planes at the subsampled dimensions);
`shufflePlanes` takes its geometry from plane 0 and installs the requested
colour family (the chroma subsampling of the joined clip is not modelled:
no property below depends on it). -/
def clipMeta : Clip → Option Meta
  | .source none _ _ => none
  | .source (some f) w h =>
      some ⟨f.colorFamily, f.bitsPerSample, f.subSamplingW, f.subSamplingH, w, h⟩
  | .extractPlane c i =>
      (clipMeta c).map fun m =>
        if i = 0 then { m with family := .GRAY, ssw := 0, ssh := 0 }
        else ⟨.GRAY, m.bits, 0, 0, m.width / 2 ^ m.ssw, m.height / 2 ^ m.ssh⟩
  | .knlMeansCL c _ _ _ => clipMeta c
  | .tnlMeans c _ _ _ _ => clipMeta c
  | .dftTest c _ _ => clipMeta c
  | .smDegrain c _ _ => clipMeta c
  | .bm3d c _ _ _ _ => clipMeta c
  | .shufflePlanes p0 _ _ fam => (clipMeta p0).map fun m => { m with family := fam }
  | .bilateralGaussian c _ => clipMeta c
  | .rangemask c _ _ => clipMeta c
  | .prewitt c => clipMeta c
  | .binarize c _ => clipMeta c
  | .stdExpr a _ _ => clipMeta a
  | .removeGrain c _ => clipMeta c
  | .resizePoint c b => (clipMeta c).map fun m => { m with bits := b }

/-- Bit depth of a clip (`vsutil.get_depth` / `format.bits_per_sample`). -/
def clipBits (c : Clip) : Option ℕ := (clipMeta c).map Meta.bits

/-- Colour family of a clip (`format.color_family`). -/
def clipFamily (c : Clip) : Option ColorFamily := (clipMeta c).map Meta.family

/-- Number of planes of a colour family (GRAY has one, the others three). -/
def numPlanes : ColorFamily → ℕ
  | .GRAY => 1
  | _ => 3

/-- Fragment of the external `vsutil.depth` collaborator at the defaults
`denoise.py` uses: return the clip unchanged when it is already at the
requested depth, otherwise insert a format-converting resize (dithering
lives inside the plugin and is not observable at this level). -/
def vsdepth (c : Clip) (bits : ℕ) : Clip :=
  if clipBits c = some bits then c else .resizePoint c bits

/-- vsutil `get_y`: extract plane 0.  (Its rejection of RGB input is not
modelled; no property below applies `detail_mask` to RGB material.) -/
def get_y (c : Clip) : Clip := .extractPlane c 0

/-- vsutil `split`: one term per plane.  `quick_denoise` only reaches this
after validating a three-plane colour family, so a triple is used. -/
def splitPlanes (c : Clip) : Clip × Clip × Clip :=
  (.extractPlane c 0, .extractPlane c 1, .extractPlane c 2)

/-- vsutil `join` as `quick_denoise` calls it (`join(planes)`, no second
argument): `std.ShufflePlanes` with join's default colour family, which is
YUV regardless of the colour family the planes came from. -/
def vsJoin (ps : Clip × Clip × Clip) : Clip :=
  .shufflePlanes ps.1 ps.2.1 ps.2.2 .YUV

/-- Peak pixel value used by the external `vsutil.scale_value` collaborator
at the defaults `detail_mask` uses (limited range, luma): 1 for 32-bit
float, the limited-range luma peak otherwise. -/
def peakValue (depth : ℕ) : ℚ := if depth = 32 then 1 else 235 * 2 ^ (depth - 8)

/-- Fragment of the external `vsutil.scale_value` collaborator at the
defaults `detail_mask` uses (no offset scaling, luma): identity when input
and output depth coincide, otherwise multiplication by the ratio of the peak
values. -/
def scale_value (value : ℚ) (input_depth output_depth : ℕ) : ℚ :=
  if input_depth = output_depth then value
  else value * peakValue output_depth / peakValue input_depth

/-- A Python number as `detail_mask` receives its thresholds; the source
distinguishes the two cases with `isinstance` checks. -/
inductive PyNum
  | int (n : ℤ)
  | float (q : ℚ)
deriving DecidableEq

/-- Threshold-rescaling block at the top of `detail_mask`
(`if get_depth(clip) != 32: ... else: ...`): when the clip is not 32-bit,
`float` thresholds are rescaled from depth 32 down to the clip depth; when
the clip is 32-bit, `int` thresholds are passed to `scale_value` with input
depth `get_depth(clip)` — which in that branch is itself 32. -/
def brzAdjust (bits : ℕ) (v : PyNum) : ℚ :=
  if bits ≠ 32 then
    match v with
    | .float q => scale_value q 32 bits
    | .int n => (n : ℚ)
  else
    match v with
    | .int n => scale_value (n : ℚ) bits 32
    | .float q => q

/-- Error taxonomy of `denoise.py`: the `ModuleNotFoundError`s and
`ValueError`s it raises, split by the condition that raises them (the
specification calls these DependencyMissingError, FormatError,
MissingParameterError and UnknownModeError), plus the `AttributeError`
Python raises for `cmode.lower()` on a non-string. -/
inductive QdError
  | dependencyMissing (modName : String)
  | formatError
  | missingParameter (key : String)
  | unknownMode
  | attributeError (attr : String)
deriving DecidableEq

/-- Availability of the optional import-time collaborators. -/
structure Env where
  hasMvsfunc : Bool
  hasHavsfunc : Bool
  hasDebandshit : Bool
deriving DecidableEq

/-- Environment with every optional dependency installed. -/
def fullEnv : Env := ⟨true, true, true⟩

/-- The `cmode` argument as the Python value it is at runtime: annotated
`str` in the signature, but the dispatch lists also mention the legacy
integer aliases 1–4. -/
inductive CMode
  | str (s : String)
  | int (n : ℤ)
deriving DecidableEq

/-- Python `cmode.lower()`: defined on strings (ASCII lowering, written
structurally over the character list), `AttributeError` on ints. -/
def cmodeLower : CMode → Except QdError CMode
  | .str s => .ok (.str (String.mk (s.data.map Char.toLower)))
  | .int _ => .error (.attributeError "lower")

/-- Python `int(x)` on a rational: truncation toward zero. -/
def pytrunc (q : ℚ) : ℤ := if 0 ≤ q then ⌊q⌋ else ⌈q⌉

/-- Derived `sosize` parameter of the DFT chroma branch:
`int(sbsize * 0.75)`. -/
def sosize (sbsize : ℤ) : ℤ := pytrunc ((sbsize : ℚ) * (3 / 4))

/-- Aliases accepted by the KNLMeansCL branch (`[1, 'knlm', 'knlmeanscl']`). -/
def knlmAliases : List CMode := [.int 1, .str "knlm", .str "knlmeanscl"]

/-- Aliases accepted by the TNLMeans branch (`[2, 'tnlm', 'tnlmeans']`). -/
def tnlmAliases : List CMode := [.int 2, .str "tnlm", .str "tnlmeans"]

/-- Aliases accepted by the DFTTest branch (`[3, 'dft', 'dfttest']`). -/
def dftAliases : List CMode := [.int 3, .str "dft", .str "dfttest"]

/-- Aliases accepted by the SMDegrain branch (`[4, 'smd', 'smdegrain']`). -/
def smdAliases : List CMode := [.int 4, .str "smd", .str "smdegrain"]

/-- Colour-family gate of `quick_denoise`: `clip.format is None or
clip.format.color_family not in (vs.YUV, vs.YCOCG, vs.RGB)`. -/
def qdFormatOK (c : Clip) : Bool :=
  match clipFamily c with
  | some .YUV => true
  | some .YCOCG => true
  | some .RGB => true
  | _ => false

/-- Chroma dispatch of `quick_denoise`: the if/elif chain over the lowered
`cmode`, applied to the two chroma planes.  The DFT branch reads `sbsize`
from the forwarded map (KeyError becomes the missing-parameter error) and
derives `sosize`; the SMDegrain branch first imports `havsfunc`. -/
def chromaDenoise (env : Env) (cm : CMode) (p1 p2 : Clip)
    (kwargs : List (String × ℤ)) : Except QdError (Clip × Clip) :=
  if cm ∈ knlmAliases then
    .ok (.knlMeansCL p1 3 2 kwargs, .knlMeansCL p2 3 2 kwargs)
  else if cm ∈ tnlmAliases then
    .ok (.tnlMeans p1 2 2 2 kwargs, .tnlMeans p2 2 2 2 kwargs)
  else if cm ∈ dftAliases then
    match kwargs.lookup "sbsize" with
    | none => .error (.missingParameter "sbsize")
    | some s => .ok (.dftTest p1 (sosize s) kwargs, .dftTest p2 (sosize s) kwargs)
  else if cm ∈ smdAliases then
    if env.hasHavsfunc then .ok (.smDegrain p1 3 kwargs, .smDegrain p2 3 kwargs)
    else .error (.dependencyMissing "havsfunc")
  else .error .unknownMode

/-- `quick_denoise`, step for step: import `mvsfunc`, validate the colour
family, split, lower `cmode`, dispatch the chroma planes, denoise luma with
BM3D (`sigma`, `psample=0`, `radius1=1`, `ref=ref or planes[0]`), rejoin. -/
def quick_denoise (env : Env) (clip : Clip) (ref : Option Clip) (cmode : CMode)
    (sigma : ℚ) (kwargs : List (String × ℤ)) : Except QdError Clip :=
  if env.hasMvsfunc = false then .error (.dependencyMissing "mvsfunc")
  else if qdFormatOK clip = false then .error .formatError
  else
    match cmodeLower cmode with
    | .error e => .error e
    | .ok cm =>
      let ps := splitPlanes clip
      (chromaDenoise env cm ps.2.1 ps.2.2 kwargs).map fun pq =>
        vsJoin (.bm3d ps.1 sigma 0 1 (ref.getD ps.1), pq.1, pq.2)

/-- Modelled from the spec: `lvsfunc.util.quick_resample` is part of this
repository but its `util` module is not among the provided sources.  The
spec says the optional pre-blur is applied through it to a working copy of
the frame; it is modelled as applying the supplied filter at a 16-bit
working depth and restoring the clip's own depth. -/
def quick_resample (c : Clip) (f : Clip → Clip) : Clip :=
  vsdepth (f (vsdepth c 16)) ((clipBits c).getD 16)

/-- Modelled from the spec: `lvsfunc.util.pick_removegrain` is part of this
repository but its `util` module is not among the provided sources.  The
spec describes it as a depth-dependent picker of a despeckle filter; both
picks collapse to one despeckle node at this metadata level, applied to a
clip with a mode. -/
def pick_removegrain (_c : Clip) : Clip → ℕ → Clip :=
  fun m mode => .removeGrain m mode

/-- Python truthiness of the optional `sigma` argument (`if sigma` in the
source): `None` and `0.0` are both falsy. -/
def sigmaTruthy : Option ℚ → Bool
  | none => false
  | some q => if q = 0 then false else true

/-- First working copy of `detail_mask` (`den_a` in the source). -/
def denA (clip : Clip) (sigma : Option ℚ) : Clip :=
  if sigmaTruthy sigma then
    quick_resample clip (fun c => .bilateralGaussian c (sigma.getD 0))
  else clip

/-- Second working copy of `detail_mask` (`den_b`); the source computes it
with a textually identical expression to `den_a`. -/
def denB (clip : Clip) (sigma : Option ℚ) : Clip :=
  if sigmaTruthy sigma then
    quick_resample clip (fun c => .bilateralGaussian c (sigma.getD 0))
  else clip

/-- Detector A of `detail_mask`, the `mask_a` pipeline exactly as written:
`depth(get_y(den_a), 16) if clip.format.bits_per_sample < 32 else
get_y(den_a)`, then the debandshit range mask with radii `rad`/`radc`, then
conversion back to the clip's depth, then binarization. -/
def detectorA (den : Clip) (bits : ℕ) (rad radc : ℤ) (brz : ℚ) : Clip :=
  let m0 := if bits < 32 then vsdepth (get_y den) 16 else get_y den
  Clip.binarize (vsdepth (.rangemask m0 rad radc) bits) brz

/-- Detector A as the specification words it: normalise to a 16-bit
intermediate exactly when the source bit depth is below 16 bits. -/
def detectorA_spec (den : Clip) (bits : ℕ) (rad radc : ℤ) (brz : ℚ) : Clip :=
  let m0 := if bits < 16 then vsdepth (get_y den) 16 else get_y den
  Clip.binarize (vsdepth (.rangemask m0 rad radc) bits) brz

/-- Detector B of `detail_mask`: Prewitt edge detection on the luma of the
second working copy, binarized. -/
def detectorB (den : Clip) (brz : ℚ) : Clip :=
  .binarize (.prewitt (get_y den)) brz

/-- The reverse-polish program handed to `core.std.Expr` at the merge step
of `detail_mask`. -/
def mergeExpr : String := "x y max"

/-- `detail_mask`: import debandshit, reject undetermined formats, rescale
the two thresholds, build the two (identically computed) working copies,
run the two detectors, merge with `std.Expr`, despeckle twice (mode 22 then
mode 11). -/
def detail_mask (env : Env) (clip : Clip) (sigma : Option ℚ)
    (rad radc : ℤ) (brz_a brz_b : PyNum) : Except QdError Clip :=
  if env.hasDebandshit = false then .error (.dependencyMissing "debandshit")
  else
    match clipMeta clip with
    | none => .error .formatError
    | some m =>
      let bits := m.bits
      let bA := brzAdjust bits brz_a
      let bB := brzAdjust bits brz_b
      let dA := denA clip sigma
      let dB := denB clip sigma
      let mask_a := detectorA dA bits rad radc bA
      let mask_b := detectorB dB bB
      let mask := Clip.stdExpr mask_a mask_b mergeExpr
      let mask2 := pick_removegrain mask mask 22
      .ok (pick_removegrain mask2 mask2 11)

/-- Tokeniser for `std.Expr` programs: split the character list on single
spaces (accumulator holds the current token reversed). -/
def exprTokens : List Char → List Char → List (List Char)
  | [], cur => [cur.reverse]
  | c :: rest, cur =>
      if c = ' ' then cur.reverse :: exprTokens rest []
      else exprTokens rest (c :: cur)

/-- One step of `core.std.Expr` reverse-polish evaluation over per-pixel
rational values, restricted to the operators `denoise.py` uses: the clip
loads `x` and `y` and the binary operator `max` (which pops the two topmost
values and pushes their maximum). -/
def exprStep (vx vy : ℚ) (stack : List ℚ) : List Char → Option (List ℚ)
  | ['x'] => some (vx :: stack)
  | ['y'] => some (vy :: stack)
  | ['m', 'a', 'x'] =>
      match stack with
      | b :: a :: rest => some (max a b :: rest)
      | _ => none
  | _ => none

/-- Per-pixel meaning of an Expr program on two input values: fold the
tokens over an empty stack; defined when exactly one value remains. -/
def exprEval (e : String) (vx vy : ℚ) : Option ℚ :=
  match (exprTokens e.data []).foldlM (exprStep vx vy) [] with
  | some [r] => some r
  | _ => none

/-- Pixelwise semantics of the merge node of `detail_mask` on two masks
(pixels indexed by ℕ). -/
def mergeSem (A B : ℕ → ℚ) : ℕ → Option ℚ :=
  fun p => exprEval mergeExpr (A p) (B p)

/-- A 4:2:0 YUV 8-bit test clip. -/
def yuv420_8 : Clip := .source (some ⟨.YUV, 8, 1, 1⟩) 1920 1080

/-- An RGB 8-bit test clip. -/
def rgbClip : Clip := .source (some ⟨.RGB, 8, 0, 0⟩) 64 64

/-- A GRAY 8-bit test clip (a colour family `quick_denoise` rejects). -/
def grayClip : Clip := .source (some ⟨.GRAY, 8, 0, 0⟩) 64 64

/-- Environment in which only `mvsfunc` is missing. -/
def noMvsEnv : Env := ⟨false, true, true⟩

/-- The output clip of the reference KNLMeansCL call on `yuv420_8`. -/
def qdKnlmOut : Clip :=
  vsJoin (.bm3d (.extractPlane yuv420_8 0) 2 0 1 (.extractPlane yuv420_8 0),
          .knlMeansCL (.extractPlane yuv420_8 1) 3 2 [],
          .knlMeansCL (.extractPlane yuv420_8 2) 3 2 [])

/-- The output clip of the reference KNLMeansCL call on `rgbClip`. -/
def qdRgbOut : Clip :=
  vsJoin (.bm3d (.extractPlane rgbClip 0) 2 0 1 (.extractPlane rgbClip 0),
          .knlMeansCL (.extractPlane rgbClip 1) 3 2 [],
          .knlMeansCL (.extractPlane rgbClip 2) 3 2 [])

/-- Mapping a function over an `Except` yields an error exactly when the
original computation does. -/
theorem exceptMap_eq_error {α β : Type} (f : α → β) (r : Except QdError α)
    (e : QdError) : r.map f = .error e ↔ r = .error e := by
  rcases r with x | x <;> simp [Except.map]

/-- Mapping a function over an `Except` yields a value exactly when the
original computation yields the preimage. -/
theorem exceptMap_eq_ok {α β : Type} (f : α → β) (r : Except QdError α)
    (b : β) : r.map f = .ok b ↔ ∃ a, r = .ok a ∧ f a = b := by
  rcases r with x | x <;> simp [Except.map, eq_comm]

/-- Extracting a plane does not change the bit depth. -/
theorem clipBits_get_y (c : Clip) : clipBits (get_y c) = clipBits c := by
  rw [clipBits, clipBits, get_y]
  simp only [clipMeta]
  cases clipMeta c
  · rfl
  · simp

/-- A KNLMeansCL alias never selects the DFT branch. -/
theorem knlm_not_dft {cm : CMode} (h : cm ∈ knlmAliases) : cm ∉ dftAliases := by
  intro hd
  simp only [knlmAliases, List.mem_cons, List.not_mem_nil, or_false] at h
  simp only [dftAliases, List.mem_cons, List.not_mem_nil, or_false] at hd
  rcases h with h | h | h <;> rcases hd with hd | hd | hd <;>
    subst h <;> simp_all

/-- A TNLMeans alias never selects the DFT branch. -/
theorem tnlm_not_dft {cm : CMode} (h : cm ∈ tnlmAliases) : cm ∉ dftAliases := by
  intro hd
  simp only [tnlmAliases, List.mem_cons, List.not_mem_nil, or_false] at h
  simp only [dftAliases, List.mem_cons, List.not_mem_nil, or_false] at hd
  rcases h with h | h | h <;> rcases hd with hd | hd | hd <;>
    subst h <;> simp_all

/-- The chroma dispatch produces the missing-parameter error exactly for a
DFT alias with no `sbsize` in the forwarded configuration map. -/
theorem chromaDenoise_missingParam (env : Env) (cm : CMode) (p1 p2 : Clip)
    (kwargs : List (String × ℤ)) :
    (∃ k, chromaDenoise env cm p1 p2 kwargs = .error (.missingParameter k)) ↔
      cm ∈ dftAliases ∧ kwargs.lookup "sbsize" = none := by
  unfold chromaDenoise
  by_cases h1 : cm ∈ knlmAliases
  · rw [if_pos h1]
    simp [knlm_not_dft h1]
  rw [if_neg h1]
  by_cases h2 : cm ∈ tnlmAliases
  · rw [if_pos h2]
    simp [tnlm_not_dft h2]
  rw [if_neg h2]
  by_cases h3 : cm ∈ dftAliases
  · rw [if_pos h3]
    rcases hlk : kwargs.lookup "sbsize" with _ | s <;> simp [h3, hlk]
  rw [if_neg h3]
  by_cases h4 : cm ∈ smdAliases
  · rw [if_pos h4]
    cases hh : env.hasHavsfunc <;> simp [hh, h3]
  · rw [if_neg h4]
    simp [h3]

/-- `quick_denoise` produces the missing-parameter error exactly when the
dependency and format gates pass, the lowered `cmode` is a DFT alias, and
the forwarded map has no `sbsize` key. -/
theorem quick_denoise_missingParam (env : Env) (clip : Clip)
    (ref : Option Clip) (cmode : CMode) (sigma : ℚ)
    (kwargs : List (String × ℤ)) :
    (∃ k, quick_denoise env clip ref cmode sigma kwargs =
        .error (.missingParameter k)) ↔
      (env.hasMvsfunc = true ∧ qdFormatOK clip = true ∧
       (∃ cm, cmodeLower cmode = .ok cm ∧ cm ∈ dftAliases) ∧
       kwargs.lookup "sbsize" = none) := by
  unfold quick_denoise
  by_cases hm : env.hasMvsfunc = false
  · rw [if_pos hm]
    simp [hm]
  rw [if_neg hm]
  have hm' : env.hasMvsfunc = true := by
    revert hm
    cases env.hasMvsfunc <;> simp
  by_cases hf : qdFormatOK clip = false
  · rw [if_pos hf]
    simp [hf]
  rw [if_neg hf]
  have hf' : qdFormatOK clip = true := by
    revert hf
    cases qdFormatOK clip <;> simp
  cases cmode with
  | int n => simp [cmodeLower]
  | str s =>
      simp only [cmodeLower]
      simp [exceptMap_eq_error, chromaDenoise_missingParam, hm', hf']

/-- The chroma dispatch at the (lowered) string alias `dft` with `sbsize`
present in the configuration map. -/
theorem chromaDenoise_dft (env : Env) (p1 p2 : Clip)
    (kwargs : List (String × ℤ)) (s : ℤ)
    (hlk : kwargs.lookup "sbsize" = some s) :
    chromaDenoise env (.str "dft") p1 p2 kwargs =
      .ok (.dftTest p1 (sosize s) kwargs, .dftTest p2 (sosize s) kwargs) := by
  unfold chromaDenoise
  rw [if_neg (by decide), if_neg (by decide), if_pos (by decide), hlk]

/-- C1: evaluating the code at the failing input.  The dispatch tables list
the legacy integer aliases (`1 ∈ knlmAliases`), but a call with `cmode = 1`
stops with the `AttributeError` from `cmode.lower()` instead of selecting
KNLMeansCL; case-insensitive string aliases dispatch as documented, and an
unsupported string fails with the unknown-mode error. -/
theorem C1_integer_alias_breaks :
    quick_denoise fullEnv yuv420_8 none (.int 1) 2 [] =
      .error (.attributeError "lower") ∧
    CMode.int 1 ∈ knlmAliases ∧
    quick_denoise fullEnv yuv420_8 none (.str "KNLM") 2 [] = .ok qdKnlmOut ∧
    quick_denoise fullEnv yuv420_8 none (.str "foo") 2 [] =
      .error .unknownMode :=
  ⟨rfl, by simp [knlmAliases], rfl, rfl⟩

/-- C2 counterexample: for a 32-bit clip, an integer threshold is not
rescaled up into the floating-point-normalised range: `scale_value` is
invoked with input and output depth both 32 and hands 128 back unchanged,
which is far outside the normalised range `[0, 1]`. -/
theorem C2_counterexample :
    brzAdjust 32 (PyNum.int 128) = 128 ∧
    ¬ brzAdjust 32 (PyNum.int 128) ≤ 1 := by
  constructor
  · norm_num [brzAdjust, scale_value]
  · norm_num [brzAdjust, scale_value]

/-- C2 (amended): for clips not at 32-bit depth, a fractional-float
threshold is rescaled from the 32-bit-normalised range down to the clip's
native range (multiplication by the native peak value); for a 32-bit clip,
an integer threshold is passed to `scale_value` with source and target
depth both 32 and comes back unchanged, so no up-rescale happens. -/
theorem C2_threshold_rescaling (bits : ℕ) (q : ℚ) (n : ℤ) (h : bits ≠ 32) :
    brzAdjust bits (.float q) = q * peakValue bits ∧
    brzAdjust 32 (.int n) = (n : ℚ) := by
  have h32 : ¬ (32 = bits) := fun hh => h hh.symm
  have hp : peakValue 32 = 1 := by simp [peakValue]
  constructor
  · show brzAdjust bits (.float q) = q * peakValue bits
    unfold brzAdjust
    rw [if_pos h]
    show scale_value q 32 bits = q * peakValue bits
    rw [scale_value, if_neg h32, hp, div_one]
  · show brzAdjust 32 (.int n) = (n : ℚ)
    unfold brzAdjust
    rw [if_neg (by norm_num)]
    show scale_value (n : ℚ) 32 32 = (n : ℚ)
    rw [scale_value, if_pos rfl]

/-- C2 witness: the amended statement at depth 8 with threshold 1/200, and
at depth 32 with the integer threshold 5. -/
theorem C2_threshold_rescaling_witness :
    brzAdjust 8 (.float (1 / 200)) = (1 / 200) * peakValue 8 ∧
    brzAdjust 32 (.int 5) = ((5 : ℤ) : ℚ) :=
  C2_threshold_rescaling 8 (1 / 200) 5 (by norm_num)

/-- C3 counterexample: with `sbsize = −2` present, the derived parameter is
`int(−1.5) = −1` (Python truncation toward zero) while `floor(−2 · 0.75)`
is `−2`, so the derived parameter differs from `floor(S * 0.75)`. -/
theorem C3_counterexample :
    sosize (-2) ≠ ⌊((-2 : ℤ) : ℚ) * (3 / 4)⌋ ∧
    sosize (-2) = -1 ∧ ⌊((-2 : ℤ) : ℚ) * (3 / 4)⌋ = -2 := by
  have h1 : sosize (-2) = -1 := by
    rw [sosize, pytrunc, if_neg (by norm_num), Int.ceil_eq_iff]
    refine ⟨by norm_num, by norm_num⟩
  have h2 : ⌊((-2 : ℤ) : ℚ) * (3 / 4)⌋ = -2 := by
    rw [Int.floor_eq_iff]
    refine ⟨by norm_num, by norm_num⟩
  refine ⟨?_, h1, h2⟩
  rw [h1, h2]
  decide

/-- C3 (amended): DFT mode without `sbsize` in the configuration map fails
with the missing-parameter error, and that error arises in no other way;
with `sbsize = S` present, both chroma planes are passed to DFTTest with
`sosize = int(S * 0.75)` — truncation toward zero, which coincides with
`floor(S * 0.75)` whenever `S ≥ 0`. -/
theorem C3_dft_dispatch :
    (∀ (env : Env) (clip : Clip) (ref : Option Clip) (cmode : CMode)
       (sigma : ℚ) (kwargs : List (String × ℤ)),
       (∃ k, quick_denoise env clip ref cmode sigma kwargs =
           .error (.missingParameter k)) ↔
         (env.hasMvsfunc = true ∧ qdFormatOK clip = true ∧
          (∃ cm, cmodeLower cmode = .ok cm ∧ cm ∈ dftAliases) ∧
          kwargs.lookup "sbsize" = none)) ∧
    (∀ s : ℤ, 0 ≤ s → sosize s = ⌊(s : ℚ) * (3 / 4)⌋) ∧
    (∀ (env : Env) (clip : Clip) (ref : Option Clip) (sigma : ℚ)
       (kwargs : List (String × ℤ)) (s : ℤ),
       env.hasMvsfunc = true → qdFormatOK clip = true →
       kwargs.lookup "sbsize" = some s →
       quick_denoise env clip ref (.str "dft") sigma kwargs =
         .ok (vsJoin (.bm3d (.extractPlane clip 0) sigma 0 1
                (ref.getD (.extractPlane clip 0)),
              .dftTest (.extractPlane clip 1) (sosize s) kwargs,
              .dftTest (.extractPlane clip 2) (sosize s) kwargs))) := by
  refine ⟨quick_denoise_missingParam, ?_, ?_⟩
  · intro s hs
    rw [sosize, pytrunc, if_pos (by positivity)]
  · intro env clip ref sigma kwargs s hm hf hlk
    unfold quick_denoise
    rw [if_neg (by simp [hm]), if_neg (by simp [hf])]
    simp only [cmodeLower]
    rw [show (String.mk ("dft".data.map Char.toLower)) = "dft" from rfl]
    rw [chromaDenoise_dft env _ _ kwargs s hlk]
    rfl

/-- C3 witness: the missing-parameter error at an empty configuration map,
the floor identity at `S = 4`, and the full dispatch at `sbsize = 16`. -/
theorem C3_dft_dispatch_witness :
    (∃ k, quick_denoise fullEnv yuv420_8 none (.str "dft") 2 [] =
        .error (.missingParameter k)) ∧
    sosize 4 = ⌊((4 : ℤ) : ℚ) * (3 / 4)⌋ ∧
    quick_denoise fullEnv yuv420_8 none (.str "dft") 2 [("sbsize", 16)] =
      .ok (vsJoin (.bm3d (.extractPlane yuv420_8 0) 2 0 1
             ((none : Option Clip).getD (.extractPlane yuv420_8 0)),
           .dftTest (.extractPlane yuv420_8 1) (sosize 16) [("sbsize", 16)],
           .dftTest (.extractPlane yuv420_8 2) (sosize 16) [("sbsize", 16)])) :=
  ⟨(C3_dft_dispatch.1 fullEnv yuv420_8 none (.str "dft") 2 []).mpr
     ⟨rfl, rfl, ⟨.str "dft", rfl, by simp [dftAliases]⟩, rfl⟩,
   C3_dft_dispatch.2.1 4 (by norm_num),
   C3_dft_dispatch.2.2 fullEnv yuv420_8 none 2 [("sbsize", 16)] 16 rfl rfl rfl⟩

/-- C4: the two working copies of `detail_mask` are computed by identical
expressions: they always coincide, both are the unblurred clip when `sigma`
is omitted, and both are the (resample-wrapped) Gaussian blur of the clip
at `sigma` whenever `sigma` is given and truthy. -/
theorem C4_den_copies (clip : Clip) (sigma : Option ℚ) (s : ℚ) :
    denA clip sigma = denB clip sigma ∧
    denA clip none = clip ∧
    (s ≠ 0 → denA clip (some s) =
      quick_resample clip (fun c => .bilateralGaussian c s)) := by
  refine ⟨rfl, rfl, fun hs => ?_⟩
  simp [denA, sigmaTruthy, hs]

/-- C4 witness: the blur branch at `sigma = 2`. -/
theorem C4_den_copies_witness :
    denA yuv420_8 (some 2) = denB yuv420_8 (some 2) ∧
    denA yuv420_8 none = yuv420_8 ∧
    ((2 : ℚ) ≠ 0 → denA yuv420_8 (some 2) =
      quick_resample yuv420_8 (fun c => .bilateralGaussian c 2)) :=
  C4_den_copies yuv420_8 (some 2) 2

/-- C5: for every clip at a VapourSynth-representable depth (integer depths
up to 16 bits, or 32-bit float), detector A of `detail_mask` equals the
specified pipeline: extract luma, normalise to a 16-bit intermediate
exactly when the depth is below 16 bits, range-mask with `rad`/`radc`,
convert back to the native depth, binarise. -/
theorem C5_detectorA (den : Clip) (bits : ℕ) (rad radc : ℤ) (brz : ℚ)
    (hb : clipBits den = some bits) (hd : bits ≤ 16 ∨ bits = 32) :
    detectorA den bits rad radc brz = detectorA_spec den bits rad radc brz := by
  rcases hd with hd | hd
  · rcases lt_or_eq_of_le hd with h15 | h16
    · have h32 : bits < 32 := by omega
      simp only [detectorA, detectorA_spec, if_pos h15, if_pos h32]
    · subst h16
      have hy : clipBits (get_y den) = some 16 := by rw [clipBits_get_y, hb]
      have hv : vsdepth (get_y den) 16 = get_y den := by rw [vsdepth, if_pos hy]
      simp only [detectorA, detectorA_spec]
      rw [if_pos (by norm_num : (16 : ℕ) < 32),
          if_neg (by norm_num : ¬ (16 : ℕ) < 16), hv]
  · subst hd
    simp only [detectorA, detectorA_spec]
    rw [if_neg (by norm_num : ¬ (32 : ℕ) < 32),
        if_neg (by norm_num : ¬ (32 : ℕ) < 16)]

/-- C5 witness: the pipelines agree on the concrete 8-bit test clip. -/
theorem C5_detectorA_witness :
    detectorA yuv420_8 8 3 2 (1 / 2) = detectorA_spec yuv420_8 8 3 2 (1 / 2) :=
  C5_detectorA yuv420_8 8 3 2 (1 / 2) rfl (Or.inl (by norm_num))

/-- C6 counterexample: an RGB input comes back from a successful
`quick_denoise` call flagged with the YUV colour family (vsutil `join` is
called without a family argument and defaults to YUV), so the original
colour family is not preserved. -/
theorem C6_counterexample :
    clipFamily rgbClip = some .RGB ∧
    quick_denoise fullEnv rgbClip none (.str "knlm") 2 [] = .ok qdRgbOut ∧
    clipFamily qdRgbOut = some .YUV ∧
    ColorFamily.YUV ≠ ColorFamily.RGB :=
  ⟨rfl, rfl, rfl, by decide⟩

/-- C6 (amended): every successful `quick_denoise` call denoises the luma
plane with BM3D at strength `sigma`, `psample = 0`, temporal radius 1, and
`ref` defaulting to the clip's own luma plane; the planes are rejoined via
vsutil `join`'s default YUV colour family, preserving plane count,
dimensions and bit depth — the colour family of the output is always YUV,
hence preserved exactly when the input is YUV. -/
theorem C6_luma_and_join (env : Env) (clip : Clip) (ref : Option Clip)
    (cmode : CMode) (sigma : ℚ) (kwargs : List (String × ℤ)) (out : Clip)
    (h : quick_denoise env clip ref cmode sigma kwargs = .ok out) :
    (∃ q1 q2, out = vsJoin (.bm3d (.extractPlane clip 0) sigma 0 1
        (ref.getD (.extractPlane clip 0)), q1, q2)) ∧
    clipFamily out = some .YUV ∧
    (clipFamily out).map numPlanes = (clipFamily clip).map numPlanes ∧
    (clipMeta out).map Meta.width = (clipMeta clip).map Meta.width ∧
    (clipMeta out).map Meta.height = (clipMeta clip).map Meta.height ∧
    (clipMeta out).map Meta.bits = (clipMeta clip).map Meta.bits ∧
    (clipFamily out = clipFamily clip ↔ clipFamily clip = some .YUV) := by
  unfold quick_denoise at h
  by_cases hm : env.hasMvsfunc = false
  · rw [if_pos hm] at h
    exact absurd h (by simp)
  rw [if_neg hm] at h
  by_cases hf : qdFormatOK clip = false
  · rw [if_pos hf] at h
    exact absurd h (by simp)
  rw [if_neg hf] at h
  have hf' : qdFormatOK clip = true := by
    revert hf
    cases qdFormatOK clip <;> simp
  rcases hmc : clipMeta clip with _ | m
  · rw [qdFormatOK, clipFamily, hmc] at hf'
    simp at hf'
  have hfam : m.family = .RGB ∨ m.family = .YUV ∨ m.family = .YCOCG := by
    rw [qdFormatOK, clipFamily, hmc] at hf'
    simp at hf'
    rcases hh : m.family <;> simp [hh] at hf' ⊢
  cases cmode with
  | int n => simp [cmodeLower] at h
  | str s =>
    simp only [cmodeLower] at h
    rw [exceptMap_eq_ok] at h
    obtain ⟨⟨q1, q2⟩, hcd, hout⟩ := h
    subst hout
    constructor
    · exact ⟨q1, q2, by simp [splitPlanes]⟩
    have hmo : clipMeta (vsJoin ((splitPlanes clip).1.bm3d sigma 0 1
        (ref.getD (splitPlanes clip).1), q1, q2)) =
        some ⟨.YUV, m.bits, 0, 0, m.width, m.height⟩ := by
      simp [vsJoin, splitPlanes, clipMeta, hmc]
    refine ⟨?_, ?_, ?_, ?_, ?_, ?_⟩
    · rw [clipFamily, hmo]
      rfl
    · rw [clipFamily, clipFamily, hmo, hmc]
      rcases hfam with hh | hh | hh <;> simp [hh, numPlanes]
    · simp [hmo]
    · simp [hmo]
    · simp [hmo]
    · rw [clipFamily, clipFamily, hmo, hmc]
      rcases hfam with hh | hh | hh <;> simp [hh]

/-- C6 witness: the amended statement at the concrete YUV KNLMeansCL call. -/
theorem C6_luma_and_join_witness :
    (∃ q1 q2, qdKnlmOut = vsJoin (.bm3d (.extractPlane yuv420_8 0) 2 0 1
        ((none : Option Clip).getD (.extractPlane yuv420_8 0)), q1, q2)) ∧
    clipFamily qdKnlmOut = some .YUV ∧
    (clipFamily qdKnlmOut).map numPlanes = (clipFamily yuv420_8).map numPlanes ∧
    (clipMeta qdKnlmOut).map Meta.width = (clipMeta yuv420_8).map Meta.width ∧
    (clipMeta qdKnlmOut).map Meta.height = (clipMeta yuv420_8).map Meta.height ∧
    (clipMeta qdKnlmOut).map Meta.bits = (clipMeta yuv420_8).map Meta.bits ∧
    (clipFamily qdKnlmOut = clipFamily yuv420_8 ↔
      clipFamily yuv420_8 = some .YUV) :=
  C6_luma_and_join fullEnv yuv420_8 none (.str "knlm") 2 [] qdKnlmOut rfl

/-- C7: the reverse-polish program `x y max` that `detail_mask` hands to
`std.Expr` at its merge step evaluates, at every pixel, to the maximum of
the two binarised mask values. -/
theorem C7_merge_pixelwise_max (A B : ℕ → ℚ) (p : ℕ) :
    mergeSem A B p = some (max (A p) (B p)) := rfl

/-- C8: a clip whose colour family is outside {YUV, YCOCG, RGB} (or whose
format is undetermined) is rejected with the format error, whatever the
`cmode`, `ref`, `sigma` and configuration map are — the gate acts before
any dispatch (even a `cmode` that would itself crash never gets looked at). -/
theorem C8_family_gate (env : Env) (clip : Clip) (ref : Option Clip)
    (cmode : CMode) (sigma : ℚ) (kwargs : List (String × ℤ))
    (hm : env.hasMvsfunc = true) (hf : qdFormatOK clip = false) :
    quick_denoise env clip ref cmode sigma kwargs = .error .formatError := by
  unfold quick_denoise
  rw [if_neg (by simp [hm]), if_pos hf]

/-- C8 witness: a GRAY clip is rejected with the format error even with the
(otherwise crashing) integer `cmode = 1`. -/
theorem C8_family_gate_witness :
    fullEnv.hasMvsfunc = true ∧ qdFormatOK grayClip = false ∧
    quick_denoise fullEnv grayClip none (.int 1) 2 [] = .error .formatError :=
  ⟨rfl, rfl, C8_family_gate fullEnv grayClip none (.int 1) 2 [] rfl rfl⟩

/-- C9: when `mvsfunc` is unavailable, every `quick_denoise` call fails with
the dependency error, before the colour-family validation and before any
dispatch — even on clips that would be rejected and `cmode`s that would
crash or pick another branch. -/
theorem C9_mvsfunc_first (env : Env) (clip : Clip) (ref : Option Clip)
    (cmode : CMode) (sigma : ℚ) (kwargs : List (String × ℤ))
    (hm : env.hasMvsfunc = false) :
    quick_denoise env clip ref cmode sigma kwargs =
      .error (.dependencyMissing "mvsfunc") := by
  unfold quick_denoise
  rw [if_pos hm]

/-- C9 witness: the dependency error fires even on a GRAY clip (which the
family gate would otherwise reject) with the SMDegrain mode. -/
theorem C9_mvsfunc_first_witness :
    noMvsEnv.hasMvsfunc = false ∧
    quick_denoise noMvsEnv grayClip none (.str "smd") 2 [] =
      .error (.dependencyMissing "mvsfunc") :=
  ⟨rfl, C9_mvsfunc_first noMvsEnv grayClip none (.str "smd") 2 [] rfl⟩

/-- C10: `sigma = 0.0` is falsy in Python, so `detail_mask` with `sigma = 0`
skips the pre-blur on both working copies and agrees with the call that
omits `sigma`, for every environment, clip, radii and thresholds. -/
theorem C10_zero_sigma (env : Env) (clip : Clip) (rad radc : ℤ)
    (brz_a brz_b : PyNum) :
    detail_mask env clip (some 0) rad radc brz_a brz_b =
      detail_mask env clip none rad radc brz_a brz_b := rfl

end Lvsfunc
